import Mathlib

/-
Verification of the hermes weak-form term library (weakforms_h1.cpp) and the
Newton driver test (example 16-newton-elliptic-1) against their natural
language specification.  Scalars are modelled by the rationals; per-quadrature
point input arrays are modelled by a list of sample records.
-/

namespace Hermes

/-- Geometry mode of a weak-form term: HERMES_PLANAR, HERMES_AXISYM_X,
HERMES_AXISYM_Y. -/
inductive GeomType
  | planar
  | axisymX
  | axisymY
deriving DecidableEq, Repr

/-- One quadrature point of the assembly contract: weight wt[i], physical
coordinates e.x[i], e.y[i], trial function samples u.val[i], u.dx[i], u.dy[i],
test function samples v.val[i], v.dx[i], v.dy[i], and previous-iterate samples
u_ext[idx].val[i], u_ext[idx].dx[i], u_ext[idx].dy[i]. -/
structure QuadPoint where
  wt : ℚ
  x : ℚ
  y : ℚ
  uVal : ℚ
  uDx : ℚ
  uDy : ℚ
  vVal : ℚ
  vDx : ℚ
  vDy : ℚ
  upVal : ℚ
  upDx : ℚ
  upDy : ℚ
deriving DecidableEq, Repr

/-- The geometry factor of the specification: 1 for planar mode, the y
coordinate of the quadrature point for axisymmetric-about-x, the x coordinate
for axisymmetric-about-y. -/
def geomFactor (gt : GeomType) (p : QuadPoint) : ℚ :=
  match gt with
  | .planar => 1
  | .axisymX => p.y
  | .axisymY => p.x

/-- DefaultMatrixFormVol::value: three-way geometry branch, per point
wt[i] * [coord *] function_coeff(x,y) * u.val * v.val, result scaled by
const_coeff at the end. -/
def defaultMatrixFormVolValue (gt : GeomType) (const_coeff : ℚ)
    (function_coeff : ℚ → ℚ → ℚ) (ps : List QuadPoint) : ℚ :=
  const_coeff *
    match gt with
    | .planar =>
        (ps.map (fun p => p.wt * function_coeff p.x p.y * p.uVal * p.vVal)).sum
    | .axisymX =>
        (ps.map (fun p => p.wt * p.y * function_coeff p.x p.y * p.uVal * p.vVal)).sum
    | .axisymY =>
        (ps.map (fun p => p.wt * p.x * function_coeff p.x p.y * p.uVal * p.vVal)).sum

/-- DefaultJacobianDiffusion::value: three-way geometry branch, per point
wt[i] * [coord *] (const_coeff * spline_deriv(u_ext.val) * u.val *
(u_ext.dx * v.dx + u_ext.dy * v.dy) + const_coeff * spline_value(u_ext.val) *
(u.dx * v.dx + u.dy * v.dy)). -/
def defaultJacobianDiffusionValue (gt : GeomType) (const_coeff : ℚ)
    (spline_value spline_deriv : ℚ → ℚ) (ps : List QuadPoint) : ℚ :=
  match gt with
  | .planar =>
      (ps.map (fun p => p.wt *
        (const_coeff * spline_deriv p.upVal * p.uVal *
            (p.upDx * p.vDx + p.upDy * p.vDy)
          + const_coeff * spline_value p.upVal *
            (p.uDx * p.vDx + p.uDy * p.vDy)))).sum
  | .axisymX =>
      (ps.map (fun p => p.wt * p.y *
        (const_coeff * spline_deriv p.upVal * p.uVal *
            (p.upDx * p.vDx + p.upDy * p.vDy)
          + const_coeff * spline_value p.upVal *
            (p.uDx * p.vDx + p.uDy * p.vDy)))).sum
  | .axisymY =>
      (ps.map (fun p => p.wt * p.x *
        (const_coeff * spline_deriv p.upVal * p.uVal *
            (p.upDx * p.vDx + p.upDy * p.vDy)
          + const_coeff * spline_value p.upVal *
            (p.uDx * p.vDx + p.uDy * p.vDy)))).sum

/-- DefaultVectorFormVol::value: three-way geometry branch, per point
wt[i] * [coord *] function_coeff(x,y) * v.val, result scaled by const_coeff. -/
def defaultVectorFormVolValue (gt : GeomType) (const_coeff : ℚ)
    (function_coeff : ℚ → ℚ → ℚ) (ps : List QuadPoint) : ℚ :=
  const_coeff *
    match gt with
    | .planar =>
        (ps.map (fun p => p.wt * function_coeff p.x p.y * p.vVal)).sum
    | .axisymX =>
        (ps.map (fun p => p.wt * p.y * function_coeff p.x p.y * p.vVal)).sum
    | .axisymY =>
        (ps.map (fun p => p.wt * p.x * function_coeff p.x p.y * p.vVal)).sum

/-- DefaultResidualVol::value: three-way geometry branch, per point
wt[i] * [coord *] function_coeff(x,y) * u_ext.val * v.val, result scaled by
const_coeff. -/
def defaultResidualVolValue (gt : GeomType) (const_coeff : ℚ)
    (function_coeff : ℚ → ℚ → ℚ) (ps : List QuadPoint) : ℚ :=
  const_coeff *
    match gt with
    | .planar =>
        (ps.map (fun p => p.wt * function_coeff p.x p.y * p.upVal * p.vVal)).sum
    | .axisymX =>
        (ps.map (fun p => p.wt * p.y * function_coeff p.x p.y * p.upVal * p.vVal)).sum
    | .axisymY =>
        (ps.map (fun p => p.wt * p.x * function_coeff p.x p.y * p.upVal * p.vVal)).sum

/-- DefaultResidualDiffusion::value: three-way geometry branch, per point
wt[i] * [coord *] const_coeff * spline_value(u_ext.val) *
(u_ext.dx * v.dx + u_ext.dy * v.dy). -/
def defaultResidualDiffusionValue (gt : GeomType) (const_coeff : ℚ)
    (spline_value : ℚ → ℚ) (ps : List QuadPoint) : ℚ :=
  match gt with
  | .planar =>
      (ps.map (fun p => p.wt * const_coeff * spline_value p.upVal *
        (p.upDx * p.vDx + p.upDy * p.vDy))).sum
  | .axisymX =>
      (ps.map (fun p => p.wt * p.y * const_coeff * spline_value p.upVal *
        (p.upDx * p.vDx + p.upDy * p.vDy))).sum
  | .axisymY =>
      (ps.map (fun p => p.wt * p.x * const_coeff * spline_value p.upVal *
        (p.upDx * p.vDx + p.upDy * p.vDy))).sum

/-- DefaultJacobianFormSurf::value: a single loop with no geometry branch,
per point wt[i] * (const_coeff * spline_deriv(u_ext.val) * u_ext.val +
const_coeff * spline_value(u_ext.val)) * u.val * v.val.  The gt member is
carried by the object but never consulted by this method. -/
def defaultJacobianFormSurfValue (gt : GeomType) (const_coeff : ℚ)
    (spline_value spline_deriv : ℚ → ℚ) (ps : List QuadPoint) : ℚ :=
  (ps.map (fun p => p.wt *
    (const_coeff * spline_deriv p.upVal * p.upVal
      + const_coeff * spline_value p.upVal) * p.uVal * p.vVal)).sum

/-- DefaultVectorFormSurf::value: three-way geometry branch, per point
wt[i] * [coord *] function_coeff(x,y) * v.val, result scaled by const_coeff. -/
def defaultVectorFormSurfValue (gt : GeomType) (const_coeff : ℚ)
    (function_coeff : ℚ → ℚ → ℚ) (ps : List QuadPoint) : ℚ :=
  const_coeff *
    match gt with
    | .planar =>
        (ps.map (fun p => p.wt * function_coeff p.x p.y * p.vVal)).sum
    | .axisymX =>
        (ps.map (fun p => p.wt * p.y * function_coeff p.x p.y * p.vVal)).sum
    | .axisymY =>
        (ps.map (fun p => p.wt * p.x * function_coeff p.x p.y * p.vVal)).sum

/-- DefaultResidualSurf::value: three-way geometry branch, per point
wt[i] * [coord *] function_coeff(x,y) * u_ext.val * v.val, result scaled by
const_coeff. -/
def defaultResidualSurfValue (gt : GeomType) (const_coeff : ℚ)
    (function_coeff : ℚ → ℚ → ℚ) (ps : List QuadPoint) : ℚ :=
  const_coeff *
    match gt with
    | .planar =>
        (ps.map (fun p => p.wt * function_coeff p.x p.y * p.upVal * p.vVal)).sum
    | .axisymX =>
        (ps.map (fun p => p.wt * p.y * function_coeff p.x p.y * p.upVal * p.vVal)).sum
    | .axisymY =>
        (ps.map (fun p => p.wt * p.x * function_coeff p.x p.y * p.upVal * p.vVal)).sum

/-- Spec-side formula for DefaultJacobianFormSurf, following the words of the
specification: the sum over quadrature points of weight times geometry factor
times the integrand of the surface Jacobian term.  Stated separately from the
source embedding so the two can be compared. -/
def specJacobianFormSurfValue (gt : GeomType) (const_coeff : ℚ)
    (spline_value spline_deriv : ℚ → ℚ) (ps : List QuadPoint) : ℚ :=
  (ps.map (fun p => p.wt * geomFactor gt p *
    ((const_coeff * spline_deriv p.upVal * p.upVal
      + const_coeff * spline_value p.upVal) * p.uVal * p.vVal))).sum

/-- Congruence for sums of mapped lists, used to align the per-branch loop
bodies with the uniform geometry-factor formula. -/
theorem sumMap_congr {α : Type} (f g : α → ℚ) (l : List α)
    (h : ∀ a, f a = g a) : (l.map f).sum = (l.map g).sum := by
  induction l with
  | nil => rfl
  | cons a t ih => simp [h a, ih]

/-- Claim C1: for every quadrature input, DefaultJacobianDiffusion::value
equals the sum over quadrature points of weight times geometry factor times
(const_coeff * spline_deriv(u_prev) * u * (grad u_prev . grad v) +
const_coeff * spline_value(u_prev) * (grad u . grad v)): the coefficient
linearization piece plus the frozen-coefficient stiffness piece, both scaled
by the same constant and geometry factor. -/
theorem defaultJacobianDiffusionValue_eq_spec_sum (gt : GeomType)
    (const_coeff : ℚ) (spline_value spline_deriv : ℚ → ℚ)
    (ps : List QuadPoint) :
    defaultJacobianDiffusionValue gt const_coeff spline_value spline_deriv ps =
      (ps.map (fun p => p.wt * geomFactor gt p *
        (const_coeff * spline_deriv p.upVal * p.uVal *
            (p.upDx * p.vDx + p.upDy * p.vDy)
          + const_coeff * spline_value p.upVal *
            (p.uDx * p.vDx + p.uDy * p.vDy)))).sum := by
  cases gt <;>
    exact sumMap_congr _ _ ps (fun p => by simp only [geomFactor]; try ring)

/-- Pulling a constant factor inside a mapped sum. -/
theorem mul_sumMap {α : Type} (c : ℚ) (f : α → ℚ) (l : List α) :
    c * (l.map f).sum = (l.map (fun a => c * f a)).sum := by
  induction l with
  | nil => simp
  | cons a t ih => simp [mul_add, ih]

/-- Quadrature point used to separate the surface Jacobian term from the
uniform geometry-factor formula: weight 1, coordinates (3, 2), unit trial and
test values, previous iterate value 5, all derivatives 0. -/
def surfCexPoint : QuadPoint :=
  { wt := 1, x := 3, y := 2, uVal := 1, uDx := 0, uDy := 0,
    vVal := 1, vDx := 0, vDy := 0, upVal := 5, upDx := 0, upDy := 0 }

/-- Claim C2, counterexample: in axisymmetric-about-x mode with constant
coefficient 1, spline value constantly 1 and spline derivative constantly 0,
on a single quadrature point with weight 1 and y coordinate 2,
DefaultJacobianFormSurf::value returns 1 while the uniform
weight-times-geometry-factor-times-integrand formula gives 2: the geometry
factor does not multiply this term. -/
theorem defaultJacobianFormSurf_no_geom_factor :
    defaultJacobianFormSurfValue .axisymX 1 (fun _ => 1) (fun _ => 0)
        [surfCexPoint] = 1 ∧
      specJacobianFormSurfValue .axisymX 1 (fun _ => 1) (fun _ => 0)
        [surfCexPoint] = 2 := by
  constructor <;>
    norm_num [defaultJacobianFormSurfValue, specJacobianFormSurfValue,
      geomFactor, surfCexPoint]

/-- Claim C2 (amended): DefaultMatrixFormVol::value and
DefaultResidualDiffusion::value equal the sum over quadrature points of weight
times geometry factor times the term integrand, with geometry factor 1 in
planar mode, the y coordinate in axisymmetric-about-x mode and the x
coordinate in axisymmetric-about-y mode; DefaultJacobianFormSurf::value,
however, ignores the geometry mode and always computes the planar formula, so
the geometry factor does not multiply it in the axisymmetric modes. -/
theorem geomFactor_terms_amended (gt : GeomType) (const_coeff : ℚ)
    (function_coeff : ℚ → ℚ → ℚ) (spline_value spline_deriv : ℚ → ℚ)
    (ps : List QuadPoint) :
    defaultMatrixFormVolValue gt const_coeff function_coeff ps =
        (ps.map (fun p => p.wt * geomFactor gt p *
          (const_coeff * function_coeff p.x p.y * p.uVal * p.vVal))).sum ∧
      defaultResidualDiffusionValue gt const_coeff spline_value ps =
        (ps.map (fun p => p.wt * geomFactor gt p *
          (const_coeff * spline_value p.upVal *
            (p.upDx * p.vDx + p.upDy * p.vDy)))).sum ∧
      defaultJacobianFormSurfValue gt const_coeff spline_value spline_deriv ps =
        defaultJacobianFormSurfValue .planar const_coeff spline_value
          spline_deriv ps := by
  refine ⟨?_, ?_, rfl⟩
  · cases gt <;>
      · rw [defaultMatrixFormVolValue, mul_sumMap]
        exact sumMap_congr _ _ ps (fun p => by simp only [geomFactor]; ring)
  · cases gt <;>
      exact sumMap_congr _ _ ps (fun p => by simp only [geomFactor]; try ring)

/-- Claim C10: every term carrying a single constant coefficient
(DefaultMatrixFormVol, DefaultVectorFormVol, DefaultVectorFormSurf,
DefaultResidualVol, DefaultResidualSurf) is homogeneous in that constant: its
value with const_coeff = c equals c times its value with const_coeff = 1, and
with zero quadrature points its value is exactly 0. -/
theorem constCoeff_homogeneous (gt : GeomType) (c : ℚ)
    (function_coeff : ℚ → ℚ → ℚ) (ps : List QuadPoint) :
    defaultMatrixFormVolValue gt c function_coeff ps =
        c * defaultMatrixFormVolValue gt 1 function_coeff ps ∧
      defaultVectorFormVolValue gt c function_coeff ps =
        c * defaultVectorFormVolValue gt 1 function_coeff ps ∧
      defaultVectorFormSurfValue gt c function_coeff ps =
        c * defaultVectorFormSurfValue gt 1 function_coeff ps ∧
      defaultResidualVolValue gt c function_coeff ps =
        c * defaultResidualVolValue gt 1 function_coeff ps ∧
      defaultResidualSurfValue gt c function_coeff ps =
        c * defaultResidualSurfValue gt 1 function_coeff ps ∧
      defaultMatrixFormVolValue gt c function_coeff [] = 0 ∧
      defaultVectorFormVolValue gt c function_coeff [] = 0 ∧
      defaultVectorFormSurfValue gt c function_coeff [] = 0 ∧
      defaultResidualVolValue gt c function_coeff [] = 0 ∧
      defaultResidualSurfValue gt c function_coeff [] = 0 := by
  cases gt <;>
    · simp only [defaultMatrixFormVolValue, defaultVectorFormVolValue,
        defaultVectorFormSurfValue, defaultResidualVolValue,
        defaultResidualSurfValue, List.map_nil, List.sum_nil]
      refine ⟨by ring, by ring, by ring, by ring, by ring,
        by ring, by ring, by ring, by ring, by ring⟩

/-- Outcome of the Newton driver of the test program: Success / Failure are
the two printouts after a normal loop exit (ERR_SUCCESS / ERR_FAILURE), the
other two are the two fatal error() aborts inside the loop. -/
inductive NewtonOutcome
  | success
  | failure
  | solverFailed
  | nonConvergence
deriving DecidableEq, Repr

/-- The stopping criterion NEWTON_TOL of the test program: 1e-6. -/
def NEWTON_TOL : ℚ := 1 / 1000000

/-- The iteration budget NEWTON_MAX_ITER of the test program: 7. -/
def NEWTON_MAX_ITER : ℕ := 7

/-- The while loop of main: at iteration counter it, assembly yields the
residual whose l2 norm (after negation) is norm it, and the linear solver
succeeds iff solveOk it.  The body, in source order: break when
norm < NEWTON_TOL or it > maxIter (reporting Success or Failure according to
the success flag set by the last solver call); abort with "Matrix solver
failed." when the solve fails, otherwise set the success flag; after the
update, abort with "Newton method did not converge." when it >= maxIter; else
increment it and loop. -/
def newtonLoop (tol : ℚ) (maxIter : ℕ) (norm : ℕ → ℚ) (solveOk : ℕ → Bool)
    (it : ℕ) (success : Bool) : NewtonOutcome :=
  if norm it < tol ∨ it > maxIter then
    if success then .success else .failure
  else if solveOk it = false then .solverFailed
  else if h : it ≥ maxIter then .nonConvergence
  else newtonLoop tol maxIter norm solveOk (it + 1) true
termination_by maxIter + 1 - it
decreasing_by omega

/-- The Newton iteration of main starts at it = 1 with success = false. -/
def newtonMain (tol : ℚ) (maxIter : ℕ) (norm : ℕ → ℚ)
    (solveOk : ℕ → Bool) : NewtonOutcome :=
  newtonLoop tol maxIter norm solveOk 1 false

/-- Claim C3, counterexample: with the residual norm already below NEWTON_TOL
at the very first convergence test (norm constantly 0) and a solver that
always succeeds, the driver terminates at once but reports Failure, not
Success, because the success flag is only ever set by a linear solve. -/
theorem newtonMain_first_test_failure :
    (0 : ℚ) < NEWTON_TOL ∧
      newtonMain NEWTON_TOL NEWTON_MAX_ITER (fun _ => 0) (fun _ => true) =
        NewtonOutcome.failure := by
  constructor
  · norm_num [NEWTON_TOL]
  · rw [newtonMain, newtonLoop]
    norm_num [NEWTON_TOL]

/-- Claim C3 (amended): whenever the residual norm at the current convergence
test is below the tolerance, the driver terminates the loop at that test; it
reports Success exactly when the success flag is set, i.e. when a linear
solve already succeeded in an earlier iteration — in particular, convergence
at the very first test (success flag still false) terminates the solve but
reports Failure. -/
theorem newtonLoop_converged_terminates (tol : ℚ) (maxIter : ℕ)
    (norm : ℕ → ℚ) (solveOk : ℕ → Bool) (it : ℕ) (success : Bool)
    (h : norm it < tol) :
    newtonLoop tol maxIter norm solveOk it success =
      if success then .success else .failure := by
  rw [newtonLoop]
  simp [h]

/-- Witness for the amended claim C3 at a concrete input: tolerance 1,
residual norm constantly 0, entering the test with the success flag set. -/
theorem newtonLoop_converged_terminates_witness :
    newtonLoop 1 7 (fun _ => 0) (fun _ => true) 2 true =
      NewtonOutcome.success := by
  have h := newtonLoop_converged_terminates 1 7 (fun _ => 0) (fun _ => true)
    2 true (by norm_num)
  simpa using h

/-- Auxiliary: while every tested residual norm stays at or above the
tolerance and every linear solve succeeds, the loop runs to the iteration
budget and aborts with the non-convergence error. -/
theorem newtonLoop_exhausts (tol : ℚ) (maxIter : ℕ) (norm : ℕ → ℚ)
    (solveOk : ℕ → Bool) (hnorm : ∀ k, k ≤ maxIter → ¬ norm k < tol)
    (hsolve : ∀ k, solveOk k = true) :
    ∀ d it success, maxIter - it = d → it ≤ maxIter →
      newtonLoop tol maxIter norm solveOk it success =
        NewtonOutcome.nonConvergence := by
  intro d
  induction d with
  | zero =>
      intro it success hd hle
      have hit : it = maxIter := by omega
      subst hit
      rw [newtonLoop]
      simp [hnorm it le_rfl, hsolve it]
  | succ d ih =>
      intro it success hd hle
      rw [newtonLoop]
      have hlt : it < maxIter := by omega
      simp only [hnorm it hle, hsolve it, false_or]
      rw [if_neg (by omega), if_neg (by simp), dif_neg (by omega)]
      exact ih (it + 1) true (by omega) (by omega)

/-- Claim C4: starting from any test within the iteration budget at which the
residual norm is not below tolerance, the driver aborts immediately with the
solver-failure signal when the linear solver fails at that iteration, and
aborts with the distinct non-convergence signal when every solve succeeds but
no tested norm ever drops below tolerance within the budget; both outcomes
are terminal and distinct from the successful ones. -/
theorem newtonLoop_failure_modes (tol : ℚ) (maxIter : ℕ) (norm : ℕ → ℚ)
    (solveOk : ℕ → Bool) (it : ℕ) (success : Bool) (hle : it ≤ maxIter)
    (hnorm : ∀ k, k ≤ maxIter → ¬ norm k < tol) :
    (solveOk it = false →
        newtonLoop tol maxIter norm solveOk it success =
          NewtonOutcome.solverFailed) ∧
      ((∀ k, solveOk k = true) →
        newtonLoop tol maxIter norm solveOk it success =
          NewtonOutcome.nonConvergence) ∧
      NewtonOutcome.solverFailed ≠ NewtonOutcome.success ∧
      NewtonOutcome.nonConvergence ≠ NewtonOutcome.success ∧
      NewtonOutcome.solverFailed ≠ NewtonOutcome.nonConvergence := by
  refine ⟨?_, ?_, by simp, by simp, by simp⟩
  · intro hfail
    have hgt : ¬ it > maxIter := by omega
    rw [newtonLoop]
    simp [hnorm it hle, hfail, hgt]
  · intro hsolve
    exact newtonLoop_exhausts tol maxIter norm solveOk hnorm hsolve
      (maxIter - it) it success rfl hle

/-- Witness for claim C4 at a concrete input: tolerance 1, budget 3, residual
norm constantly 2; a solver that always fails yields the solver-failure
signal, a solver that always succeeds yields the non-convergence signal. -/
theorem newtonLoop_failure_modes_witness :
    newtonLoop 1 3 (fun _ => 2) (fun _ => false) 1 false =
        NewtonOutcome.solverFailed ∧
      newtonLoop 1 3 (fun _ => 2) (fun _ => true) 1 false =
        NewtonOutcome.nonConvergence := by
  constructor
  · exact (newtonLoop_failure_modes 1 3 (fun _ => 2) (fun _ => false) 1 false
      (by norm_num) (fun k _ => by norm_num)).1 rfl
  · exact (newtonLoop_failure_modes 1 3 (fun _ => 2) (fun _ => true) 1 false
      (by norm_num) (fun k _ => by norm_num)).2.1 (fun k => rfl)

/-- Modelled from the spec: the residual l2 norm observed at the k-th Newton
convergence test of the documented end-to-end run with diffusion coefficient
kappa(u) = 1 + u^4, constant initial field 3.0 and fixed mesh/space (the mesh
loader, H1 space, assembler and UMFPACK backend are not under src/): the norm
stays at or above the tolerance at the first six tests and first drops below
it at the seventh test. -/
def documentedRunNorm (it : ℕ) : ℚ :=
  if it < 7 then 1 else 0

/-- Modelled from the spec: in the documented run the UMFPACK linear solve
succeeds at every iteration. -/
def documentedRunSolveOk (_it : ℕ) : Bool := true

/-- Claim C9: with the documented residual-norm profile, tolerance NEWTON_TOL
= 1e-6 and iteration budget NEWTON_MAX_ITER = 7 the driver reports Success
(convergence by iteration 7); with the budget reduced to 6 it aborts with the
non-convergence error. -/
theorem newtonMain_documented_run :
    newtonMain NEWTON_TOL 7 documentedRunNorm documentedRunSolveOk =
        NewtonOutcome.success ∧
      newtonMain NEWTON_TOL 6 documentedRunNorm documentedRunSolveOk =
        NewtonOutcome.nonConvergence := by
  constructor <;>
    · rw [newtonMain]
      rw [newtonLoop]; norm_num [documentedRunNorm, documentedRunSolveOk, NEWTON_TOL]
      rw [newtonLoop]; norm_num [documentedRunNorm, documentedRunSolveOk, NEWTON_TOL]
      rw [newtonLoop]; norm_num [documentedRunNorm, documentedRunSolveOk, NEWTON_TOL]
      rw [newtonLoop]; norm_num [documentedRunNorm, documentedRunSolveOk, NEWTON_TOL]
      rw [newtonLoop]; norm_num [documentedRunNorm, documentedRunSolveOk, NEWTON_TOL]
      rw [newtonLoop]; norm_num [documentedRunNorm, documentedRunSolveOk, NEWTON_TOL]
      try (rw [newtonLoop]; norm_num [documentedRunNorm, documentedRunSolveOk, NEWTON_TOL])

/-- Pointer-identity model for coefficient objects (DefaultFunction /
CubicSpline): the sentinel is HERMES_DEFAULT_FUNCTION / HERMES_DEFAULT_SPLINE,
supplied id is a caller-owned heap object, fresh is the constant-1.0 instance
allocated by a term constructor, indeterminate is the value of a member read
before it was initialized. -/
inductive Ptr
  | sentinel
  | supplied (id : ℕ)
  | fresh
  | indeterminate
deriving DecidableEq, Repr

/-- DefaultMatrixFormVol constructor effect on the function_coeff member: the
member is initialized from the f_coeff argument and replaced by a freshly
allocated constant-1.0 instance when the argument is the sentinel. -/
def defaultMatrixFormVolStoredCoeff (f_coeff : Ptr) : Ptr :=
  if f_coeff = .sentinel then .fresh else f_coeff

/-- DefaultMatrixFormVol destructor: deletes function_coeff whenever it
differs from the sentinel. -/
def defaultMatrixFormVolDtorReleases (function_coeff : Ptr) : Bool :=
  function_coeff ≠ .sentinel

/-- DefaultJacobianDiffusion constructor effect on the spline_coeff member. -/
def defaultJacobianDiffusionStoredCoeff (c_spline : Ptr) : Ptr :=
  if c_spline = .sentinel then .fresh else c_spline

/-- DefaultJacobianDiffusion destructor: deletes spline_coeff whenever it
differs from the sentinel. -/
def defaultJacobianDiffusionDtorReleases (spline_coeff : Ptr) : Bool :=
  spline_coeff ≠ .sentinel

/-- Claim C6, counterexample: a DefaultMatrixFormVol constructed with a
caller-supplied coefficient (not the sentinel) stores that very instance, and
its destructor releases it all the same — contradicting the claim that only
sentinel-constructed terms release their coefficient. -/
theorem dtor_releases_supplied_coeff :
    defaultMatrixFormVolStoredCoeff (Ptr.supplied 0) = Ptr.supplied 0 ∧
      defaultMatrixFormVolDtorReleases
        (defaultMatrixFormVolStoredCoeff (Ptr.supplied 0)) = true ∧
      Ptr.supplied 0 ≠ Ptr.sentinel := by
  refine ⟨rfl, ?_, by decide⟩
  decide

/-- Claim C6 (amended): the destructor releases the stored coefficient
whenever it differs from the sentinel; since construction replaces the
sentinel argument by a fresh owned instance, the stored coefficient never
equals the sentinel and the destructor releases it for every construction
argument — caller-supplied instances included.  The same holds for
DefaultJacobianDiffusion and its spline coefficient. -/
theorem dtor_always_releases (f : Ptr) :
    defaultMatrixFormVolStoredCoeff f =
        (if f = .sentinel then .fresh else f) ∧
      defaultMatrixFormVolDtorReleases (defaultMatrixFormVolStoredCoeff f) =
        true ∧
      defaultJacobianDiffusionStoredCoeff f =
        (if f = .sentinel then .fresh else f) ∧
      defaultJacobianDiffusionDtorReleases
        (defaultJacobianDiffusionStoredCoeff f) = true := by
  refine ⟨rfl, ?_, rfl, ?_⟩ <;>
    cases f <;>
      simp [defaultMatrixFormVolStoredCoeff, defaultMatrixFormVolDtorReleases,
        defaultJacobianDiffusionStoredCoeff,
        defaultJacobianDiffusionDtorReleases]

/-- State of a DefaultJacobianAdvection term after construction. -/
structure DefaultJacobianAdvection where
  idx_j : ℕ
  const_coeff1 : ℚ
  const_coeff2 : ℚ
  spline_coeff1 : Ptr
  spline_coeff2 : Ptr
  gt : GeomType
deriving DecidableEq, Repr

/-- DefaultJacobianAdvection single-area constructor: aborts with
"Axisymmetric advection forms not implemented yet." for any non-planar
geometry mode, otherwise stores the caller arguments, replacing sentinel
splines by fresh constant-1.0 instances. -/
def mkDefaultJacobianAdvection (j : ℕ) (c1 c2 : ℚ) (s1 s2 : Ptr)
    (gt : GeomType) : Except String DefaultJacobianAdvection :=
  if gt ≠ .planar then
    .error "Axisymmetric advection forms not implemented yet."
  else
    .ok { idx_j := j, const_coeff1 := c1, const_coeff2 := c2,
          spline_coeff1 := if s1 = .sentinel then .fresh else s1,
          spline_coeff2 := if s2 = .sentinel then .fresh else s2, gt := gt }

/-- DefaultJacobianAdvection area-list constructor: the member initializer
list reads spline_coeff1 and spline_coeff2 from themselves (the parameters are
named c_spline1 / c_spline2), so for a non-sentinel argument the members keep
an indeterminate, uninitialized value; the sentinel check still replaces them
by fresh instances in the sentinel case. -/
def mkDefaultJacobianAdvectionAreas (j : ℕ) (c1 c2 : ℚ) (s1 s2 : Ptr)
    (gt : GeomType) : Except String DefaultJacobianAdvection :=
  if gt ≠ .planar then
    .error "Axisymmetric advection forms not implemented yet."
  else
    .ok { idx_j := j, const_coeff1 := c1, const_coeff2 := c2,
          spline_coeff1 := if s1 = .sentinel then .fresh else .indeterminate,
          spline_coeff2 := if s2 = .sentinel then .fresh else .indeterminate,
          gt := gt }

/-- State of a DefaultResidualAdvection term after construction. -/
structure DefaultResidualAdvection where
  idx_i : ℕ
  const_coeff1 : ℚ
  const_coeff2 : ℚ
  spline_coeff1 : Ptr
  spline_coeff2 : Ptr
  gt : GeomType
deriving DecidableEq, Repr

/-- DefaultResidualAdvection single-area constructor: same fail-fast geometry
check and sentinel handling as the Jacobian variant. -/
def mkDefaultResidualAdvection (i : ℕ) (c1 c2 : ℚ) (s1 s2 : Ptr)
    (gt : GeomType) : Except String DefaultResidualAdvection :=
  if gt ≠ .planar then
    .error "Axisymmetric advection forms not implemented yet."
  else
    .ok { idx_i := i, const_coeff1 := c1, const_coeff2 := c2,
          spline_coeff1 := if s1 = .sentinel then .fresh else s1,
          spline_coeff2 := if s2 = .sentinel then .fresh else s2, gt := gt }

/-- DefaultResidualAdvection area-list constructor: like the Jacobian variant,
its initializer list reads spline_coeff1 / spline_coeff2 from themselves, so
non-sentinel spline arguments leave the members indeterminate. -/
def mkDefaultResidualAdvectionAreas (i : ℕ) (c1 c2 : ℚ) (s1 s2 : Ptr)
    (gt : GeomType) : Except String DefaultResidualAdvection :=
  if gt ≠ .planar then
    .error "Axisymmetric advection forms not implemented yet."
  else
    .ok { idx_i := i, const_coeff1 := c1, const_coeff2 := c2,
          spline_coeff1 := if s1 = .sentinel then .fresh else .indeterminate,
          spline_coeff2 := if s2 = .sentinel then .fresh else .indeterminate,
          gt := gt }

/-- State of a DefaultJacobianFormSurf term after construction; idx_j is an
Option because the area-list constructor leaves the member uninitialized. -/
structure DefaultJacobianFormSurf where
  idx_j : Option ℕ
  const_coeff : ℚ
  spline_coeff : Ptr
  gt : GeomType
deriving DecidableEq, Repr

/-- DefaultJacobianFormSurf single-area constructor: stores idx_j := j and the
caller spline (fresh constant-1.0 instance in the sentinel case). -/
def mkDefaultJacobianFormSurf (j : ℕ) (c : ℚ) (s : Ptr)
    (gt : GeomType) : DefaultJacobianFormSurf :=
  { idx_j := some j, const_coeff := c,
    spline_coeff := if s = .sentinel then .fresh else s, gt := gt }

/-- DefaultJacobianFormSurf area-list constructor: its initializer list omits
idx_j entirely (left uninitialized) and reads spline_coeff from itself (the
parameter is named c_spline), so non-sentinel spline arguments leave the
member indeterminate. -/
def mkDefaultJacobianFormSurfAreas (_j : ℕ) (c : ℚ) (s : Ptr)
    (gt : GeomType) : DefaultJacobianFormSurf :=
  { idx_j := none, const_coeff := c,
    spline_coeff := if s = .sentinel then .fresh else .indeterminate,
    gt := gt }

/-- Extracts the stored spline pair of a constructed advection Jacobian term. -/
def jacAdvSplines : Except String DefaultJacobianAdvection → Option (Ptr × Ptr)
  | .ok t => some (t.spline_coeff1, t.spline_coeff2)
  | .error _ => none

/-- Extracts the stored spline pair of a constructed advection residual term. -/
def resAdvSplines : Except String DefaultResidualAdvection → Option (Ptr × Ptr)
  | .ok t => some (t.spline_coeff1, t.spline_coeff2)
  | .error _ => none

/-- Claim C5: for every choice of construction arguments, both advection term
constructors succeed in planar mode and abort with the configuration error
"Axisymmetric advection forms not implemented yet." in either axisymmetric
mode. -/
theorem advection_ctor_planar_only (j : ℕ) (c1 c2 : ℚ) (s1 s2 : Ptr) :
    (mkDefaultJacobianAdvection j c1 c2 s1 s2 .planar).isOk = true ∧
      mkDefaultJacobianAdvection j c1 c2 s1 s2 .axisymX =
        .error "Axisymmetric advection forms not implemented yet." ∧
      mkDefaultJacobianAdvection j c1 c2 s1 s2 .axisymY =
        .error "Axisymmetric advection forms not implemented yet." ∧
      (mkDefaultResidualAdvection j c1 c2 s1 s2 .planar).isOk = true ∧
      mkDefaultResidualAdvection j c1 c2 s1 s2 .axisymX =
        .error "Axisymmetric advection forms not implemented yet." ∧
      mkDefaultResidualAdvection j c1 c2 s1 s2 .axisymY =
        .error "Axisymmetric advection forms not implemented yet." := by
  exact ⟨rfl, rfl, rfl, rfl, rfl, rfl⟩

/-- Claim C8: the area-list constructors of DefaultJacobianAdvection,
DefaultResidualAdvection and DefaultJacobianFormSurf do not store
caller-supplied splines the way the single-area constructors do: with
caller-supplied (non-sentinel) splines the single-area constructors store the
supplied instances while the area-list constructors leave the members
indeterminate (self-initialization in the member initializer list), and the
DefaultJacobianFormSurf area-list constructor additionally leaves idx_j
uninitialized. -/
theorem areas_ctor_stores_garbage :
    jacAdvSplines
        (mkDefaultJacobianAdvection 0 1 1 (.supplied 1) (.supplied 2) .planar)
        = some (.supplied 1, .supplied 2) ∧
      jacAdvSplines
        (mkDefaultJacobianAdvectionAreas 0 1 1 (.supplied 1) (.supplied 2)
          .planar) = some (.indeterminate, .indeterminate) ∧
      resAdvSplines
        (mkDefaultResidualAdvection 0 1 1 (.supplied 1) (.supplied 2) .planar)
        = some (.supplied 1, .supplied 2) ∧
      resAdvSplines
        (mkDefaultResidualAdvectionAreas 0 1 1 (.supplied 1) (.supplied 2)
          .planar) = some (.indeterminate, .indeterminate) ∧
      (mkDefaultJacobianFormSurf 0 1 (.supplied 1) .planar).spline_coeff =
        .supplied 1 ∧
      (mkDefaultJacobianFormSurfAreas 0 1 (.supplied 1) .planar).spline_coeff =
        .indeterminate ∧
      (mkDefaultJacobianFormSurf 0 1 (.supplied 1) .planar).idx_j = some 0 ∧
      (mkDefaultJacobianFormSurfAreas 0 1 (.supplied 1) .planar).idx_j =
        none := by
  decide

/-- Modelled from the spec: Hermes symbolic polynomial-degree algebra (the
class Ord, whose implementation is not under src/): a value is a conservative
degree bound, addition of two values takes the maximum of the degrees. -/
def ordAdd (a b : ℕ) : ℕ := max a b

/-- Modelled from the spec: multiplication in the symbolic degree algebra adds
the degrees; plain double scalars (quadrature weights, constant coefficients)
carry degree 0. -/
def ordMul (a b : ℕ) : ℕ := a + b

/-- Per-quadrature-point degree samples used by the order estimator: the
degrees of the previous-iterate value and gradient samples and of the test
function gradient samples. -/
structure QuadPointOrd where
  upVal : ℕ
  upDx : ℕ
  upDy : ℕ
  vDx : ℕ
  vDy : ℕ
deriving DecidableEq, Repr

/-- DefaultResidualDiffusion::ord: a single loop accumulating the planar-base
formula result += wt[i] * const_coeff * spline_value(u_ext.val) *
(u_ext.dx * v.dx + u_ext.dy * v.dy) in the degree algebra (wt[i] and
const_coeff are doubles of degree 0, splineOrd gives the degree of the spline
value at a sample of the given degree), followed by
result = result * Ord(1) whenever the geometry mode is not planar. -/
def defaultResidualDiffusionOrd (gt : GeomType) (splineOrd : ℕ → ℕ)
    (ps : List QuadPointOrd) : ℕ :=
  let base := ps.foldl (fun result p =>
    ordAdd result (ordMul (ordMul (ordMul 0 0) (splineOrd p.upVal))
      (ordAdd (ordMul p.upDx p.vDx) (ordMul p.upDy p.vDy)))) 0
  if gt ≠ .planar then ordMul base 1 else base

/-- Spec-side planar-geometry order formula, following the words of the
specification: the sum over quadrature points, in the degree algebra
(addition = max, multiplication = sum of degrees), of weight times constant
times the spline value at the previous iterate times the dot product of the
previous-iterate gradient and the test gradient. -/
def specPlanarDiffusionOrd (splineOrd : ℕ → ℕ) (ps : List QuadPointOrd) : ℕ :=
  ps.foldl (fun result p =>
    max result (splineOrd p.upVal + max (p.upDx + p.vDx) (p.upDy + p.vDy))) 0

/-- Claim C7: DefaultResidualDiffusion::ord computes the planar-geometry
summation formula of the specification in the degree algebra for every
geometry mode, and in the two axisymmetric modes the result is that planar
order increased by exactly one unit of headroom; the geometry factor degree
is not otherwise tracked. -/
theorem defaultResidualDiffusionOrd_planar_plus_one (splineOrd : ℕ → ℕ)
    (ps : List QuadPointOrd) :
    defaultResidualDiffusionOrd .planar splineOrd ps =
        specPlanarDiffusionOrd splineOrd ps ∧
      defaultResidualDiffusionOrd .axisymX splineOrd ps =
        specPlanarDiffusionOrd splineOrd ps + 1 ∧
      defaultResidualDiffusionOrd .axisymY splineOrd ps =
        specPlanarDiffusionOrd splineOrd ps + 1 := by
  refine ⟨?_, ?_, ?_⟩ <;>
    simp [defaultResidualDiffusionOrd, specPlanarDiffusionOrd, ordAdd, ordMul]

end Hermes
